import Mathlib

/-!
Verification of the pharmT order/cart/inventory core.

Shallow embedding of the Mongoose models (`Drug`, `Cart`, `Order`) and the
order/cart controllers.  JS numbers are modelled as exact rationals, stock
counters as integers.  Mongoose `save()` is modelled as: schema validation
(which runs before user `pre('save')` hooks), then the registered
`pre('save')` hooks in order, then clearing the modified-paths state.
Defaulted paths on a freshly constructed document are tracked in the
`default` state, not the `modify` state, so `isModified` is false for them;
the `statusDirty` field of `Order` models the `modify` state of the
`orderStatus` path.
-/

namespace PharmT

/-- Money values (JS numbers) modelled as exact rationals. -/
abbrev Money := ℚ

/-- A `Drug` document: the fields the order/cart core reads and writes. -/
structure DrugDoc where
  name : String
  price : Money
  stockQuantity : Int
  isActive : Bool
  prescriptionRequired : Bool
  salesCount : Int
deriving Repr, DecidableEq

/-- The drug collection at a point in time, one document per id. -/
abbrev DrugDb := Nat → DrugDoc

/-- `Drug.findByIdAndUpdate(id, { $inc: { 'stock.quantity': dq, salesCount: ds } })`:
an unconditional increment; update validators are not enabled, so the
schema's `min: 0` on `stock.quantity` is not enforced here. -/
def dbInc (db : DrugDb) (id : Nat) (dq ds : Int) : DrugDb :=
  fun i =>
    if i = id then
      { db i with
        stockQuantity := (db i).stockQuantity + dq,
        salesCount := (db i).salesCount + ds }
    else db i

/-- `Drug.findOne({ _id: id, isActive: true })`. -/
def findActiveDrug (drugs : Nat → Option DrugDoc) (id : Nat) : Option DrugDoc :=
  match drugs id with
  | some d => if d.isActive then some d else none
  | none => none

/-- One cart line (`cartItemSchema`). -/
structure CartItem where
  drug : Nat
  quantity : Nat
  price : Money
  subtotal : Money
deriving Repr, DecidableEq

/-- A `Cart` document (fields the core touches). -/
structure Cart where
  items : List CartItem
  totalItems : Nat
  totalAmount : Money
deriving Repr, DecidableEq

/-- `cartSchema.pre('save')`: `totalItems` and `totalAmount` are computed from
the items as they stand at the start of the save, and only afterwards is each
item's `subtotal` recomputed from its stored `price` and `quantity`. -/
def cartPreSave (c : Cart) : Cart :=
  { items := c.items.map fun it => { it with subtotal := it.price * (it.quantity : Money) },
    totalItems := c.items.foldl (fun t it => t + it.quantity) 0,
    totalAmount := c.items.foldl (fun t it => t + it.subtotal) 0 }

/-- Schema validation for carts (`min`/`max` constraints); in Mongoose this
runs before the user `pre('save')` hook, i.e. on the entry values. -/
def cartValid (c : Cart) : Bool :=
  c.items.all (fun it =>
    1 ≤ it.quantity && it.quantity ≤ 999
      && decide (0 ≤ it.price) && decide (0 ≤ it.subtotal))
  && decide (0 ≤ c.totalAmount)

/-- `cart.save()`: validation, then the totals hook. -/
def cartSave (c : Cart) : Option Cart :=
  if cartValid c then some (cartPreSave c) else none

/-- Error responses returned by the cart/order controllers. -/
inductive OrderErr where
  | emptyCart
  | productUnavailable (name : String)
  | insufficientStock (name : String) (available : Int)
  | invalidTransition
  | invalidStatus
  | validationError
  | notFound
deriving Repr, DecidableEq

/-- First-match in-place update of a cart line, as done through
`findIndex` + assignment in the controller. -/
def updateExisting (drugId : Nat) (f : CartItem → CartItem) :
    List CartItem → List CartItem
  | [] => []
  | it :: rest =>
    if it.drug = drugId then f it :: rest
    else it :: updateExisting drugId f rest

/-- `POST /api/cart/add` (`addToCart` in the cart controller).  `drugs` is the
drug collection the `findOne` runs against. -/
def addToCart (drugs : Nat → Option DrugDoc) (drugId : Nat) (quantity : Nat)
    (cart : Cart) : Except OrderErr Cart :=
  match findActiveDrug drugs drugId with
  | none => .error .notFound
  | some drug =>
    if drug.stockQuantity < (quantity : Int) then
      .error (.insufficientStock drug.name drug.stockQuantity)
    else
      match cart.items.find? (fun it => it.drug = drugId) with
      | some existing =>
        let newQuantity := existing.quantity + quantity
        if drug.stockQuantity < (newQuantity : Int) then
          .error (.insufficientStock drug.name drug.stockQuantity)
        else
          match cartSave { cart with
              items := updateExisting drugId
                (fun it => { it with
                  quantity := newQuantity,
                  subtotal := drug.price * (newQuantity : Money) }) cart.items } with
          | some c => .ok c
          | none => .error .validationError
      | none =>
        match cartSave { cart with
            items := cart.items ++
              [{ drug := drugId, quantity := quantity, price := drug.price,
                 subtotal := drug.price * (quantity : Money) }] } with
        | some c => .ok c
        | none => .error .validationError

/-- The order status enumeration of `orderSchema.orderStatus`. -/
inductive OrderStatus where
  | pending | confirmed | processing | shipped | delivered | cancelled | returned
deriving Repr, DecidableEq

/-- One order line (`orderItemSchema`), an immutable snapshot. -/
structure OrderItem where
  drug : Nat
  name : String
  quantity : Nat
  price : Money
  subtotal : Money
  prescriptionRequired : Bool
deriving Repr, DecidableEq

/-- `orderSchema.orderSummary`. -/
structure OrderSummary where
  subtotal : Money
  tax : Money
  shipping : Money
  discount : Money
  total : Money
deriving Repr, DecidableEq

/-- One `statusHistory` entry. -/
structure StatusEntry where
  status : OrderStatus
  timestamp : Nat
  note : String
  updatedBy : Option Nat
deriving Repr, DecidableEq

/-- An `Order` document (fields the core touches).  `statusDirty` models the
Mongoose modified-paths state of the `orderStatus` path: set by an assignment
that changes the value, cleared by `save()`, and false for a path that only
received its schema default. -/
structure Order where
  orderNumber : Option String
  user : Nat
  items : List OrderItem
  orderSummary : OrderSummary
  orderStatus : OrderStatus
  statusHistory : List StatusEntry
  requiresPrescription : Bool
  actualDeliveryDate : Option Nat
  cancellationReason : Option String
  statusDirty : Bool
deriving Repr, DecidableEq

/-- Order number generated in the first `pre('save')` hook from the clock and
a random draw. -/
def genOrderNumber (now rand : Nat) : String :=
  "ORD" ++ toString (now % 1000000) ++ toString (rand % 1000)

/-- First `orderSchema.pre('save')` hook: assign `orderNumber` if unset, set
`requiresPrescription` from the items, and recompute `orderSummary.subtotal`
and `orderSummary.total`. -/
def orderPreSaveTotals (now rand : Nat) (o : Order) : Order :=
  let o1 :=
    match o.orderNumber with
    | none => { o with orderNumber := some (genOrderNumber now rand) }
    | some _ => o
  let o2 := { o1 with requiresPrescription := o1.items.any (·.prescriptionRequired) }
  let subtotal := o2.items.foldl (fun t it => t + it.subtotal) 0
  { o2 with
    orderSummary := { o2.orderSummary with
      subtotal := subtotal,
      total := subtotal + o2.orderSummary.tax + o2.orderSummary.shipping
        - o2.orderSummary.discount } }

/-- Second `orderSchema.pre('save')` hook: append a history entry iff the
`orderStatus` path is modified. -/
def orderPreSaveHistory (now : Nat) (o : Order) : Order :=
  if o.statusDirty then
    { o with statusHistory := o.statusHistory ++
        [{ status := o.orderStatus, timestamp := now,
           note := "Order status changed", updatedBy := none }] }
  else o

/-- Schema validation for order items (`min` constraints). -/
def orderItemValid (it : OrderItem) : Bool :=
  1 ≤ it.quantity && decide (0 ≤ it.price) && decide (0 ≤ it.subtotal)

/-- Schema validation for orders (`min` constraints); runs before the user
`pre('save')` hooks, i.e. on the entry values. -/
def orderValid (o : Order) : Bool :=
  o.items.all orderItemValid
  && decide (0 ≤ o.orderSummary.subtotal) && decide (0 ≤ o.orderSummary.tax)
  && decide (0 ≤ o.orderSummary.shipping) && decide (0 ≤ o.orderSummary.discount)
  && decide (0 ≤ o.orderSummary.total)

/-- `order.save()`: validation, then the two `pre('save')` hooks in
registration order, then the modified-paths state is cleared. -/
def orderSave (now rand : Nat) (o : Order) : Option Order :=
  if orderValid o then
    some { orderPreSaveHistory now (orderPreSaveTotals now rand o) with statusDirty := false }
  else none

/-- Virtual `canBeCancelled`: status is `pending` or `confirmed`. -/
def Order.canBeCancelled (o : Order) : Bool :=
  o.orderStatus == OrderStatus.pending || o.orderStatus == OrderStatus.confirmed

/-- Assignment `this.orderStatus = s`: the path is marked modified iff the
assigned value differs from the current one. -/
def Order.setStatus (o : Order) (s : OrderStatus) : Order :=
  { o with orderStatus := s, statusDirty := o.statusDirty || s != o.orderStatus }

/-- Instance method `order.updateStatus(newStatus, note, updatedBy)`: set the
status, push a history entry, save. -/
def Order.updateStatus (now rand : Nat) (o : Order) (newStatus : OrderStatus)
    (note : String) (updatedBy : Nat) : Option Order :=
  let o1 := o.setStatus newStatus
  let o2 := { o1 with statusHistory := o1.statusHistory ++
      [{ status := newStatus, timestamp := now, note := note,
         updatedBy := some updatedBy }] }
  orderSave now rand o2

/-- Instance method `order.cancelOrder(reason, cancelledBy)`: throws when the
guard fails, otherwise sets the status to `cancelled`, records the reason,
pushes a history entry and saves. -/
def Order.cancelOrder (now rand : Nat) (o : Order) (reason : String)
    (cancelledBy : Nat) : Option Order :=
  if o.canBeCancelled = false then none
  else
    let o1 := o.setStatus .cancelled
    let o2 := { o1 with
      cancellationReason := some reason,
      statusHistory := o1.statusHistory ++
        [{ status := .cancelled, timestamp := now, note := reason,
           updatedBy := some cancelledBy }] }
    orderSave now rand o2

/-- The `createOrder` validation loop (orderController lines 36 to 64): walk
the populated cart items in order; the first unavailable drug or insufficient
stock returns an error response; otherwise produce the order lines priced at
the drug's current catalog price, the running subtotal and the prescription
flag. -/
def buildOrderItems (view : Nat → Option DrugDoc) :
    List CartItem → Except OrderErr (List OrderItem × Money × Bool)
  | [] => .ok ([], 0, false)
  | it :: rest =>
    match view it.drug with
    | none => .error (.productUnavailable "Unknown")
    | some drug =>
      if drug.isActive = false then .error (.productUnavailable drug.name)
      else if drug.stockQuantity < (it.quantity : Int) then
        .error (.insufficientStock drug.name drug.stockQuantity)
      else
        match buildOrderItems view rest with
        | .error e => .error e
        | .ok (items, sub, rx) =>
          .ok ({ drug := it.drug, name := drug.name, quantity := it.quantity,
                 price := drug.price,
                 subtotal := drug.price * (it.quantity : Money),
                 prescriptionRequired := drug.prescriptionRequired } :: items,
               drug.price * (it.quantity : Money) + sub,
               drug.prescriptionRequired || rx)

/-- The stock-update loop of `createOrder` (orderController lines 92 to 100):
for every order line, `$inc` the drug's `stock.quantity` by `-quantity` and
its `salesCount` by `quantity`. -/
def decrementStock (items : List OrderItem) (db : DrugDb) : DrugDb :=
  items.foldl (fun d it => dbInc d it.drug (-(it.quantity : Int)) (it.quantity : Int)) db

/-- The stock-restore loop of `cancelOrder` (orderController lines 223 to
231): for every order line, `$inc` the drug's `stock.quantity` by `quantity`
and its `salesCount` by `-quantity`. -/
def restoreStock (items : List OrderItem) (db : DrugDb) : DrugDb :=
  items.foldl (fun d it => dbInc d it.drug (it.quantity : Int) (-(it.quantity : Int))) db

/-- The `orderData` object assembled by `createOrder` (lines 66 to 88): tax is
8 percent of the subtotal, shipping is free above 50 and 5.99 otherwise,
`total = subtotal + tax + shipping`; `discount` and `orderStatus` take their
schema defaults (`0` and `pending`), so the `orderStatus` path is not marked
modified. -/
def mkOrderData (user : Nat) (orderItems : List OrderItem) (subtotal : Money)
    (requiresPrescription : Bool) : Order :=
  let tax := subtotal * (8 / 100)
  let shipping : Money := if 50 < subtotal then 0 else 599 / 100
  { orderNumber := none, user := user, items := orderItems,
    orderSummary :=
      { subtotal := subtotal, tax := tax, shipping := shipping,
        discount := 0, total := subtotal + tax + shipping },
    orderStatus := .pending,
    statusHistory := [],
    requiresPrescription := requiresPrescription,
    actualDeliveryDate := none, cancellationReason := none,
    statusDirty := false }

/-- `POST /api/orders` (`createOrder`).  `view` is the drug collection as read
when the cart was populated; `db` is the collection at the moment the
per-line stock updates are written.  The two coincide when nothing runs
concurrently between the read and the writes. -/
def createOrder (now rand user : Nat) (cart : Cart) (view : Nat → Option DrugDoc)
    (db : DrugDb) : Except OrderErr (Order × DrugDb × Cart) :=
  if cart.items.isEmpty then .error .emptyCart
  else
    match buildOrderItems view cart.items with
    | .error e => .error e
    | .ok (orderItems, subtotal, requiresPrescription) =>
      match orderSave now rand (mkOrderData user orderItems subtotal requiresPrescription) with
      | none => .error .validationError
      | some order =>
        match cartSave { cart with items := [] } with
        | none => .error .validationError
        | some clearedCart => .ok (order, decrementStock orderItems db, clearedCart)

/-- `PUT /api/orders/:id/cancel` (`cancelOrder` in the controller); the
requester is assumed to own the order.  Guard first, then the instance
method, then the stock-restore loop over the order's items. -/
def cancelOrderCtrl (now rand requester : Nat) (reason : String) (o : Order)
    (db : DrugDb) : Except OrderErr (Order × DrugDb) :=
  if o.canBeCancelled = false then .error .invalidTransition
  else
    match Order.cancelOrder now rand o reason requester with
    | none => .error .validationError
    | some o1 => .ok (o1, restoreStock o.items db)

/-- The `validStatuses` list of `updateOrderStatus`. -/
def validStatuses : List OrderStatus :=
  [.pending, .confirmed, .processing, .shipped, .delivered, .cancelled, .returned]

/-- `PUT /api/orders/:id/status` (`updateOrderStatus`, admin only): check the
requested status against `validStatuses`, call `updateStatus`, and stamp
`actualDeliveryDate` on a first transition to `delivered`. -/
def updateOrderStatusCtrl (now rand admin : Nat) (status : OrderStatus)
    (note : String) (o : Order) : Except OrderErr Order :=
  if validStatuses.contains status = false then .error .invalidStatus
  else
    match Order.updateStatus now rand o status note admin with
    | none => .error .validationError
    | some o1 =>
      if status == OrderStatus.delivered && o1.actualDeliveryDate.isNone then
        match orderSave now rand { o1 with actualDeliveryDate := some now } with
        | none => .error .validationError
        | some o2 => .ok o2
      else .ok o1

/-! Concrete inputs used by the counterexamples, the code-evaluation theorems
and the witnesses. -/

/-- Placeholder document for ids that have no drug. -/
def noDrug : DrugDoc :=
  { name := "", price := 0, stockQuantity := 0, isActive := false,
    prescriptionRequired := false, salesCount := 0 }

/-- Product A of the checkout scenario: price 10.00, stock 5. -/
def drugA : DrugDoc :=
  { name := "A", price := 10, stockQuantity := 5, isActive := true,
    prescriptionRequired := false, salesCount := 0 }

/-- Product B of the checkout scenario: price 20.00, stock 1. -/
def drugB : DrugDoc :=
  { name := "B", price := 20, stockQuantity := 1, isActive := true,
    prescriptionRequired := false, salesCount := 0 }

/-- Product B after a concurrent checkout consumed its last unit. -/
def drugB0 : DrugDoc := { drugB with stockQuantity := 0 }

/-- The scenario cart: 2 units of product A and 1 unit of product B. -/
def scenarioCart : Cart :=
  { items := [{ drug := 1, quantity := 2, price := 10, subtotal := 20 },
              { drug := 2, quantity := 1, price := 20, subtotal := 20 }],
    totalItems := 3, totalAmount := 40 }

/-- The drug collection as populated into the cart: B still shows stock 1. -/
def scenarioView : Nat → Option DrugDoc :=
  fun i => if i = 1 then some drugA else if i = 2 then some drugB else none

/-- The drug collection at the moment the stock updates are written: B's last
unit is already gone. -/
def scenarioDb : DrugDb :=
  fun i => if i = 1 then drugA else if i = 2 then drugB0 else noDrug

/-- `createOrder` run on the stale-stock scenario. -/
def staleRun : Except OrderErr (Order × DrugDb × Cart) :=
  createOrder 0 0 7 scenarioCart scenarioView scenarioDb

/-- The drug collection written by a run, or the collection of placeholders
when the run failed. -/
def runDb (r : Except OrderErr (Order × DrugDb × Cart)) : DrugDb :=
  match r with
  | .ok (_, db, _) => db
  | .error _ => fun _ => noDrug

/-- The order persisted by a run. -/
def createdOrder (r : Except OrderErr (Order × DrugDb × Cart)) : Option Order :=
  match r with
  | .ok (o, _, _) => some o
  | .error _ => none

/-! Helper lemmas. -/

/-- Total quantity ordered for drug `d` across a list of order lines. -/
def itemsQty (d : Nat) : List OrderItem → Int
  | [] => 0
  | it :: rest => (if it.drug = d then (it.quantity : Int) else 0) + itemsQty d rest

lemma dbInc_stockQuantity (db : DrugDb) (id : Nat) (dq ds : Int) (d : Nat) :
    ((dbInc db id dq ds) d).stockQuantity
      = (db d).stockQuantity + (if d = id then dq else 0) := by
  by_cases h : d = id <;> simp [dbInc, h]

lemma decrementStock_stockQuantity (l : List OrderItem) (db : DrugDb) (d : Nat) :
    ((decrementStock l db) d).stockQuantity = (db d).stockQuantity - itemsQty d l := by
  induction l generalizing db with
  | nil => simp [decrementStock, itemsQty]
  | cons it rest ih =>
    have h1 : decrementStock (it :: rest) db
        = decrementStock rest (dbInc db it.drug (-(it.quantity : Int)) (it.quantity : Int)) := by
      simp [decrementStock]
    rw [h1, ih, dbInc_stockQuantity, itemsQty]
    by_cases h : it.drug = d
    · simp [h]; ring
    · have h' : ¬d = it.drug := fun h2 => h h2.symm
      simp [h, h']

lemma restoreStock_stockQuantity (l : List OrderItem) (db : DrugDb) (d : Nat) :
    ((restoreStock l db) d).stockQuantity = (db d).stockQuantity + itemsQty d l := by
  induction l generalizing db with
  | nil => simp [restoreStock, itemsQty]
  | cons it rest ih =>
    have h1 : restoreStock (it :: rest) db
        = restoreStock rest (dbInc db it.drug (it.quantity : Int) (-(it.quantity : Int))) := by
      simp [restoreStock]
    rw [h1, ih, dbInc_stockQuantity, itemsQty]
    by_cases h : it.drug = d
    · simp [h]; ring
    · have h' : ¬d = it.drug := fun h2 => h h2.symm
      simp [h, h']

lemma foldl_subtotal_shift (l : List OrderItem) (a : Money) :
    l.foldl (fun t it => t + it.subtotal) a = a + l.foldl (fun t it => t + it.subtotal) 0 := by
  induction l generalizing a with
  | nil => simp
  | cons x xs ih =>
    simp only [List.foldl_cons]
    rw [ih, ih (0 + x.subtotal)]
    ring

lemma foldl_subtotal_nonneg (l : List OrderItem) (a : Money) (ha : 0 ≤ a)
    (h : ∀ it ∈ l, 0 ≤ it.subtotal) :
    0 ≤ l.foldl (fun t it => t + it.subtotal) a := by
  induction l generalizing a with
  | nil => simpa
  | cons x xs ih =>
    simp only [List.foldl_cons]
    have hx : 0 ≤ x.subtotal := h x (by simp)
    exact ih (a + x.subtotal) (by linarith) (fun it hit => h it (by simp [hit]))

lemma cart_foldl_sub_congr (l : List CartItem) (a : Money) (f g : CartItem → Money)
    (h : ∀ it ∈ l, f it = g it) :
    l.foldl (fun t it => t + f it) a = l.foldl (fun t it => t + g it) a := by
  induction l generalizing a with
  | nil => rfl
  | cons x xs ih =>
    simp only [List.foldl_cons]
    rw [h x (by simp)]
    exact ih _ (fun it hit => h it (by simp [hit]))

lemma orderPreSaveTotals_spec (now rand : Nat) (o : Order) :
    orderPreSaveTotals now rand o =
      { o with
        orderNumber := some (o.orderNumber.getD (genOrderNumber now rand)),
        requiresPrescription := o.items.any (·.prescriptionRequired),
        orderSummary := { o.orderSummary with
          subtotal := o.items.foldl (fun t it => t + it.subtotal) 0,
          total := o.items.foldl (fun t it => t + it.subtotal) 0
            + o.orderSummary.tax + o.orderSummary.shipping
            - o.orderSummary.discount } } := by
  cases h : o.orderNumber <;> simp [orderPreSaveTotals, h]

lemma orderSave_eq {now rand : Nat} {o o' : Order} (h : orderSave now rand o = some o') :
    orderValid o = true
    ∧ o' = { orderPreSaveHistory now (orderPreSaveTotals now rand o) with
        statusDirty := false } := by
  by_cases hv : orderValid o
  · refine ⟨hv, ?_⟩
    simp only [orderSave, hv, if_true, Option.some.injEq] at h
    exact h.symm
  · simp [orderSave, hv] at h

lemma orderSave_proj {now rand : Nat} {o o' : Order} (h : orderSave now rand o = some o') :
    o'.items = o.items
    ∧ o'.orderStatus = o.orderStatus
    ∧ o'.actualDeliveryDate = o.actualDeliveryDate
    ∧ o'.statusDirty = false
    ∧ o'.orderSummary = { o.orderSummary with
        subtotal := o.items.foldl (fun t it => t + it.subtotal) 0,
        total := o.items.foldl (fun t it => t + it.subtotal) 0
          + o.orderSummary.tax + o.orderSummary.shipping - o.orderSummary.discount }
    ∧ o'.statusHistory = (if o.statusDirty then
        o.statusHistory ++
          [{ status := o.orderStatus, timestamp := now,
             note := "Order status changed", updatedBy := none }]
      else o.statusHistory) := by
  obtain ⟨-, rfl⟩ := orderSave_eq h
  rw [orderPreSaveTotals_spec]
  by_cases hd : o.statusDirty <;> simp [orderPreSaveHistory, hd]

lemma orderValid_facts {o : Order} (h : orderValid o = true) :
    (∀ it ∈ o.items, 1 ≤ it.quantity ∧ 0 ≤ it.price ∧ 0 ≤ it.subtotal)
    ∧ 0 ≤ o.orderSummary.subtotal ∧ 0 ≤ o.orderSummary.tax
    ∧ 0 ≤ o.orderSummary.shipping ∧ 0 ≤ o.orderSummary.discount
    ∧ 0 ≤ o.orderSummary.total := by
  simp only [orderValid, orderItemValid, Bool.and_eq_true, List.all_eq_true,
    decide_eq_true_eq] at h
  obtain ⟨⟨⟨⟨⟨hitems, hsub⟩, htax⟩, hship⟩, hdisc⟩, htot⟩ := h
  exact ⟨fun it hit => ⟨(hitems it hit).1.1, (hitems it hit).1.2, (hitems it hit).2⟩,
    hsub, htax, hship, hdisc, htot⟩

lemma orderValid_congr {o o' : Order} (hi : o'.items = o.items)
    (hs : o'.orderSummary = o.orderSummary) :
    orderValid o' = orderValid o := by
  simp [orderValid, hi, hs]

lemma orderValid_of_save {now rand : Nat} {o o' : Order}
    (h : orderSave now rand o = some o') (hd : o.orderSummary.discount = 0) :
    orderValid o' = true := by
  have hv := (orderSave_eq h).1
  obtain ⟨hitems, -, -, -, hsum, -⟩ := orderSave_proj h
  have hf := orderValid_facts hv
  have hsub : 0 ≤ o.items.foldl (fun t it => t + it.subtotal) 0 :=
    foldl_subtotal_nonneg _ 0 le_rfl (fun it hit => (hf.1 it hit).2.2)
  simp only [orderValid, orderItemValid, Bool.and_eq_true, List.all_eq_true,
    decide_eq_true_eq, hitems, hsum]
  have ht := hf.2.2.1
  have hs := hf.2.2.2.1
  refine ⟨⟨⟨⟨⟨fun it hit => ?_, hsub⟩, ht⟩, hs⟩, hf.2.2.2.2.1⟩, ?_⟩
  · exact ⟨⟨(hf.1 it hit).1, (hf.1 it hit).2.1⟩, (hf.1 it hit).2.2⟩
  · rw [hd]
    linarith

lemma cartSave_eq {c c' : Cart} (h : cartSave c = some c') :
    cartValid c = true ∧ c' = cartPreSave c := by
  by_cases hv : cartValid c
  · refine ⟨hv, ?_⟩
    simp only [cartSave, hv, if_true, Option.some.injEq] at h
    exact h.symm
  · simp [cartSave, hv] at h

lemma buildOrderItems_spec {view : Nat → Option DrugDoc} {l : List CartItem}
    {items : List OrderItem} {sub : Money} {rx : Bool}
    (h : buildOrderItems view l = .ok (items, sub, rx)) :
    List.Forall₂ (fun ci oi => ∃ d, view ci.drug = some d ∧ oi.price = d.price
      ∧ oi.quantity = ci.quantity
      ∧ oi.subtotal = d.price * (ci.quantity : Money)) l items
    ∧ sub = items.foldl (fun t it => t + it.subtotal) 0 := by
  induction l generalizing items sub rx with
  | nil =>
    simp only [buildOrderItems, Except.ok.injEq, Prod.mk.injEq] at h
    obtain ⟨h1, h2, -⟩ := h
    subst h1; subst h2
    exact ⟨List.Forall₂.nil, by simp⟩
  | cons it rest ih =>
    simp only [buildOrderItems] at h
    cases hv : view it.drug with
    | none => rw [hv] at h; simp at h
    | some d =>
      rw [hv] at h
      split at h
      · simp at h
      · split at h
        · simp at h
        · split at h
          · simp at h
          · split at h
            · simp at h
            · rename_i x1 drug2 heq2 hact hstock x2 items2 sub2 rx2 hrec
              cases Option.some.inj heq2
              simp only [Except.ok.injEq, Prod.mk.injEq] at h
              obtain ⟨h1, h2, -⟩ := h
              subst h1; subst h2
              obtain ⟨hall, hsub⟩ := ih hrec
              refine ⟨List.Forall₂.cons ⟨d, hv, rfl, rfl, rfl⟩ hall, ?_⟩
              rw [List.foldl_cons, foldl_subtotal_shift, hsub]
              ring

lemma mkOrderData_spec (user : Nat) (its : List OrderItem) (sub : Money) (rx : Bool) :
    (mkOrderData user its sub rx).items = its
    ∧ (mkOrderData user its sub rx).orderStatus = .pending
    ∧ (mkOrderData user its sub rx).statusDirty = false
    ∧ (mkOrderData user its sub rx).statusHistory = []
    ∧ (mkOrderData user its sub rx).orderSummary =
        { subtotal := sub, tax := sub * (8 / 100),
          shipping := if 50 < sub then 0 else 599 / 100,
          discount := 0,
          total := sub + sub * (8 / 100) + (if 50 < sub then 0 else 599 / 100) } :=
  ⟨rfl, rfl, rfl, rfl, rfl⟩

lemma createOrder_ok_elim {now rand user : Nat} {cart : Cart}
    {view : Nat → Option DrugDoc} {db : DrugDb} {o : Order} {db' : DrugDb} {c' : Cart}
    (h : createOrder now rand user cart view db = .ok (o, db', c')) :
    ∃ orderItems subtotal rx,
      buildOrderItems view cart.items = .ok (orderItems, subtotal, rx)
      ∧ orderSave now rand (mkOrderData user orderItems subtotal rx) = some o
      ∧ db' = decrementStock orderItems db
      ∧ cartSave { cart with items := [] } = some c' := by
  unfold createOrder at h
  split at h
  · simp at h
  · split at h
    · simp at h
    · rename_i orderItems subtotal rx hbuild
      split at h
      · simp at h
      · rename_i order hsave
        split at h
        · simp at h
        · rename_i clearedCart hclear
          simp only [Except.ok.injEq, Prod.mk.injEq] at h
          obtain ⟨h1, h2, h3⟩ := h
          subst h1; subst h2; subst h3
          exact ⟨orderItems, subtotal, rx, hbuild, hsave, rfl, hclear⟩

lemma updateStatus_eq (now rand : Nat) (o : Order) (s : OrderStatus)
    (note : String) (uid : Nat) :
    Order.updateStatus now rand o s note uid =
      orderSave now rand { o.setStatus s with
        statusHistory := o.statusHistory ++
          [{ status := s, timestamp := now, note := note,
             updatedBy := some uid }] } := rfl

lemma cancelOrder_eq (now rand : Nat) (o : Order) (reason : String) (uid : Nat)
    (hg : o.canBeCancelled = true) :
    Order.cancelOrder now rand o reason uid =
      orderSave now rand { o.setStatus .cancelled with
        cancellationReason := some reason,
        statusHistory := o.statusHistory ++
          [{ status := .cancelled, timestamp := now, note := reason,
             updatedBy := some uid }] } := by
  unfold Order.cancelOrder
  rw [hg]
  simp [Order.setStatus]

/-- The drug collection with both A and B still at their cart-time stock. -/
def okDb : DrugDb :=
  fun i => if i = 1 then drugA else if i = 2 then drugB else noDrug

/-- `createOrder` run on the consistent scenario: the populated view and the
written collection agree. -/
def okRun : Except OrderErr (Order × DrugDb × Cart) :=
  createOrder 3 4 7 scenarioCart scenarioView okDb

/-- The order lines produced for the scenario cart: both lines priced at the
catalog price. -/
def staleItems : List OrderItem :=
  [{ drug := 1, name := "A", quantity := 2, price := 10, subtotal := 20,
     prescriptionRequired := false },
   { drug := 2, name := "B", quantity := 1, price := 20, subtotal := 20,
     prescriptionRequired := false }]

lemma scenario_build : buildOrderItems scenarioView scenarioCart.items
    = .ok (staleItems, 40, false) := by
  norm_num [buildOrderItems, scenarioView, scenarioCart, drugA, drugB, staleItems]

lemma scenario_orderValid : orderValid (mkOrderData 7 staleItems 40 false) = true := by
  norm_num [orderValid, orderItemValid, mkOrderData, staleItems]

/-- The order persisted by `createOrder` on the scenario cart. -/
def scenarioOrder (now rand : Nat) : Order :=
  { orderPreSaveHistory now (orderPreSaveTotals now rand (mkOrderData 7 staleItems 40 false)) with
    statusDirty := false }

lemma scenario_orderSave (now rand : Nat) :
    orderSave now rand (mkOrderData 7 staleItems 40 false) = some (scenarioOrder now rand) := by
  simp [orderSave, scenario_orderValid, scenarioOrder]

lemma scenario_cartSave :
    cartSave { scenarioCart with items := [] }
      = some (cartPreSave { scenarioCart with items := [] }) := by
  norm_num [cartSave, cartValid, scenarioCart]

lemma createOrder_scenario_eq (now rand : Nat) (db : DrugDb) :
    createOrder now rand 7 scenarioCart scenarioView db
      = .ok (scenarioOrder now rand, decrementStock staleItems db,
             cartPreSave { scenarioCart with items := [] }) := by
  simp only [createOrder, scenario_build, scenario_orderSave, scenario_cartSave]
  norm_num [scenarioCart]

lemma scenarioOrder_facts (now rand : Nat) :
    (scenarioOrder now rand).statusHistory = []
    ∧ (scenarioOrder now rand).orderStatus = .pending := by
  simp [scenarioOrder, orderPreSaveHistory, orderPreSaveTotals, mkOrderData]

lemma staleItems_qty :
    itemsQty 1 staleItems = 2 ∧ itemsQty 2 staleItems = 1 := by
  norm_num [itemsQty, staleItems]

/-- C1: the claim requires order creation to be all-or-nothing across lines,
rolling back already-applied adjustments with compensating `+quantity`
writes and failing with `InsufficientStock` when a per-line adjustment
cannot be satisfied.  The code has no such path: the stock check happens
once against the populated snapshot, and the per-line writes are plain
unconditional `$inc` updates.  Evaluating `createOrder` at the spec's own
scenario (cart of 2×A and 1×B validated against stocks 5 and 1, with B's
last unit concurrently consumed before the writes) shows that creation
succeeds, A's stock is decremented to 3, and B's stock is driven to −1 —
no failure, no rollback, and both stocks differ from their pre-call values. -/
theorem createOrder_no_rollback_oversells :
    staleRun.isOk = true
    ∧ (runDb staleRun 1).stockQuantity = 3
    ∧ (runDb staleRun 2).stockQuantity = -1 := by
  have h : staleRun = .ok (scenarioOrder 0 0, decrementStock staleItems scenarioDb,
      cartPreSave { scenarioCart with items := [] }) := createOrder_scenario_eq 0 0 scenarioDb
  refine ⟨by rw [h]; rfl, ?_, ?_⟩
  · rw [h]
    simp only [runDb]
    rw [decrementStock_stockQuantity, staleItems_qty.1]
    norm_num [scenarioDb, drugA]
  · rw [h]
    simp only [runDb]
    rw [decrementStock_stockQuantity, staleItems_qty.2]
    norm_num [scenarioDb, drugB0, drugB]

/-- C2: the claim describes a conditional adjustment primitive that applies a
delta only when `quantity + delta ≥ 0` and otherwise fails with
`InsufficientStock`, concluding that stock never goes negative.  The actual
write primitive `dbInc` (a `findByIdAndUpdate` with `$inc` and no update
validators) applies the delta unconditionally: applied to product B at
stock 0 with delta −1 it yields −1 instead of failing, and the full
`createOrder` run at the stale-stock scenario leaves a persisted stock
quantity below zero, violating the drug schema's own `min: 0` constraint. -/
theorem stockAdjustment_unconditional_goes_negative :
    ((dbInc scenarioDb 2 (-1) 1) 2).stockQuantity = -1
    ∧ (runDb staleRun 2).stockQuantity < 0 := by
  have h : staleRun = .ok (scenarioOrder 0 0, decrementStock staleItems scenarioDb,
      cartPreSave { scenarioCart with items := [] }) := createOrder_scenario_eq 0 0 scenarioDb
  constructor
  · norm_num [dbInc, scenarioDb, drugB0, drugB]
  · rw [h]
    simp only [runDb]
    rw [decrementStock_stockQuantity, staleItems_qty.2]
    norm_num [scenarioDb, drugB0, drugB]

/-- C6 counterexample: the claim includes an implicit history entry appended
at creation, whose status should equal the order's status.  A successful
`createOrder` run yields an order in status `pending` whose `statusHistory`
is empty: the `orderStatus` path only received its schema default, which
Mongoose does not mark as modified, so the history hook does not fire. -/
theorem createOrder_appends_no_initial_history :
    (createdOrder okRun).map (fun o => o.statusHistory) = some []
    ∧ (createdOrder okRun).map (fun o => o.orderStatus) = some OrderStatus.pending := by
  have h : okRun = .ok (scenarioOrder 3 4, decrementStock staleItems okDb,
      cartPreSave { scenarioCart with items := [] }) := createOrder_scenario_eq 3 4 okDb
  rw [h]
  simp only [createdOrder, Option.map_some']
  exact ⟨by rw [(scenarioOrder_facts 3 4).1], by rw [(scenarioOrder_facts 3 4).2]⟩

/-- C10: calling `updateStatus` with a status different from the current one
appends exactly two history entries, both carrying the new status: one pushed
explicitly by the method and one pushed by the pre-save hook, which fires
because the `orderStatus` path was modified. -/
theorem updateStatus_appends_two_entries (now rand : Nat) (o o' : Order)
    (s : OrderStatus) (note : String) (uid : Nat) (hne : s ≠ o.orderStatus)
    (h : Order.updateStatus now rand o s note uid = some o') :
    o'.statusHistory = o.statusHistory ++
      [{ status := s, timestamp := now, note := note, updatedBy := some uid },
       { status := s, timestamp := now, note := "Order status changed",
         updatedBy := none }]
    ∧ o'.statusHistory.length = o.statusHistory.length + 2 := by
  rw [updateStatus_eq] at h
  obtain ⟨-, -, -, -, -, hhist⟩ := orderSave_proj h
  have hb : (s != o.orderStatus) = true := bne_iff_ne.mpr hne
  simp only [Order.setStatus, hb, Bool.or_true, if_true] at hhist
  constructor
  · rw [hhist, List.append_assoc]
    rfl
  · rw [hhist]
    simp

/-- C3: after every successful save, `orderSummary.total` equals
`subtotal + tax + shipping − discount`, the total is nonnegative, and
`orderSummary.subtotal` equals the sum of the line subtotals — stated for
orders whose discount is 0, which covers every order this system persists:
`createOrder` leaves `discount` at its schema default 0 (second conjunct) and
no save ever changes it (third conjunct). -/
theorem orderSummary_total_invariant :
    (∀ now rand : Nat, ∀ o o' : Order, orderSave now rand o = some o' →
      o.orderSummary.discount = 0 →
      o'.orderSummary.total = o'.orderSummary.subtotal + o'.orderSummary.tax
          + o'.orderSummary.shipping - o'.orderSummary.discount
        ∧ 0 ≤ o'.orderSummary.total
        ∧ o'.orderSummary.subtotal = o'.items.foldl (fun t it => t + it.subtotal) 0)
    ∧ (∀ now rand user : Nat, ∀ cart : Cart, ∀ view : Nat → Option DrugDoc,
        ∀ db : DrugDb, ∀ o : Order, ∀ db' : DrugDb, ∀ c' : Cart,
        createOrder now rand user cart view db = .ok (o, db', c') →
        o.orderSummary.discount = 0)
    ∧ (∀ now rand : Nat, ∀ o o' : Order, orderSave now rand o = some o' →
        o'.orderSummary.discount = o.orderSummary.discount) := by
  refine ⟨?_, ?_, ?_⟩
  · intro now rand o o' h hd
    have hv := (orderSave_eq h).1
    obtain ⟨hitems, -, -, -, hsum, -⟩ := orderSave_proj h
    have hf := orderValid_facts hv
    have hsub : 0 ≤ o.items.foldl (fun t it => t + it.subtotal) 0 :=
      foldl_subtotal_nonneg _ 0 le_rfl (fun it hit => (hf.1 it hit).2.2)
    rw [hsum, hitems]
    refine ⟨rfl, ?_, rfl⟩
    have ht := hf.2.2.1
    have hs := hf.2.2.2.1
    simp only [hd]
    linarith
  · intro now rand user cart view db o db' c' h
    obtain ⟨its, sub, rx, -, hsave, -, -⟩ := createOrder_ok_elim h
    rw [(orderSave_proj hsave).2.2.2.2.1]
    simp [mkOrderData]
  · intro now rand o o' h
    rw [(orderSave_proj h).2.2.2.2.1]

/-- Shared helper: when the guard passes and the order's own fields validate,
the cancel controller succeeds, restoring stock over the order's items. -/
lemma cancelOrderCtrl_ok (now rand requester : Nat) (reason : String) (o : Order)
    (db : DrugDb) (hg : o.canBeCancelled = true) (hv : orderValid o = true) :
    ∃ o', cancelOrderCtrl now rand requester reason o db
        = .ok (o', restoreStock o.items db)
      ∧ o'.orderStatus = .cancelled := by
  have hco := cancelOrder_eq now rand o reason requester hg
  set o2 : Order := { o.setStatus .cancelled with
      cancellationReason := some reason,
      statusHistory := o.statusHistory ++
        [{ status := .cancelled, timestamp := now, note := reason,
           updatedBy := some requester }] } with ho2
  have hv2 : orderValid o2 = true := by
    rw [orderValid_congr (show o2.items = o.items by simp [ho2, Order.setStatus])
      (show o2.orderSummary = o.orderSummary by simp [ho2, Order.setStatus])]
    exact hv
  cases hs : orderSave now rand o2 with
  | none => simp [orderSave, hv2] at hs
  | some o3 =>
    refine ⟨o3, ?_, ?_⟩
    · simp [cancelOrderCtrl, hg, hco, hs]
    · rw [(orderSave_proj hs).2.1]
      simp [ho2, Order.setStatus]

/-- C4: the cancel controller is guarded by `canBeCancelled`
(status `pending` or `confirmed`): from any other status it fails with the
invalid-transition response before touching anything, while from a
cancellable status it succeeds, sets the status to `cancelled`, and restores
every line's quantity to its drug's stock (stated per product as the sum of
that product's line quantities). -/
theorem cancelOrder_guard_behavior (now rand requester : Nat) (reason : String)
    (o : Order) (db : DrugDb) :
    (o.canBeCancelled = false →
      cancelOrderCtrl now rand requester reason o db = .error .invalidTransition)
    ∧ (o.canBeCancelled = true → orderValid o = true →
      ∃ o', cancelOrderCtrl now rand requester reason o db
          = .ok (o', restoreStock o.items db)
        ∧ o'.orderStatus = .cancelled
        ∧ ∀ d, ((restoreStock o.items db) d).stockQuantity
            = (db d).stockQuantity + itemsQty d o.items) := by
  constructor
  · intro hg
    simp [cancelOrderCtrl, hg]
  · intro hg hv
    obtain ⟨o', hctrl, hstat⟩ := cancelOrderCtrl_ok now rand requester reason o db hg hv
    exact ⟨o', hctrl, hstat, fun d => restoreStock_stockQuantity _ _ _⟩

/-- C7: a successful `createOrder` followed by `cancelOrder` on the resulting
order restores every product's stock quantity to its value before the
creation: the cancel loop adds back, per product, exactly the summed line
quantity that the create loop removed. -/
theorem create_then_cancel_restores_stock (now rand user now2 rand2 requester : Nat)
    (reason : String) (cart : Cart) (view : Nat → Option DrugDoc) (db : DrugDb)
    (o : Order) (db1 : DrugDb) (c' : Cart)
    (h : createOrder now rand user cart view db = .ok (o, db1, c')) :
    ∃ o2 db2, cancelOrderCtrl now2 rand2 requester reason o db1 = .ok (o2, db2)
      ∧ ∀ d, (db2 d).stockQuantity = (db d).stockQuantity := by
  obtain ⟨its, sub, rx, hbuild, hsave, hdb1, -⟩ := createOrder_ok_elim h
  subst hdb1
  have hitems : o.items = its := by
    rw [(orderSave_proj hsave).1, (mkOrderData_spec user its sub rx).1]
  have hstat : o.orderStatus = .pending := by
    rw [(orderSave_proj hsave).2.1, (mkOrderData_spec user its sub rx).2.1]
  have hg : o.canBeCancelled = true := by
    simp [Order.canBeCancelled, hstat]
  have hd0 : (mkOrderData user its sub rx).orderSummary.discount = 0 := by
    simp [mkOrderData]
  have hv : orderValid o = true := orderValid_of_save hsave hd0
  obtain ⟨o2, hctrl, -⟩ :=
    cancelOrderCtrl_ok now2 rand2 requester reason o (decrementStock its db) hg hv
  refine ⟨o2, restoreStock o.items (decrementStock its db), hctrl, fun d => ?_⟩
  rw [restoreStock_stockQuantity, hitems, decrementStock_stockQuantity]
  ring

/-- C8: every order line is priced at the drug's current catalog price from
the populated view — not the cart's stored price — with
`subtotal = price × quantity` per line; the order summary has
`subtotal = Σ line subtotals`, `tax = subtotal × 8 %`,
free shipping above 50 and 5.99 otherwise, and
`total = subtotal + tax + shipping − discount`. -/
theorem createOrder_reprices_and_totals (now rand user : Nat) (cart : Cart)
    (view : Nat → Option DrugDoc) (db : DrugDb) (o : Order) (db' : DrugDb) (c' : Cart)
    (h : createOrder now rand user cart view db = .ok (o, db', c')) :
    List.Forall₂ (fun ci oi => ∃ d, view ci.drug = some d ∧ oi.price = d.price
        ∧ oi.quantity = ci.quantity
        ∧ oi.subtotal = d.price * (ci.quantity : Money)) cart.items o.items
    ∧ o.orderSummary.subtotal = o.items.foldl (fun t it => t + it.subtotal) 0
    ∧ o.orderSummary.tax = o.orderSummary.subtotal * (8 / 100)
    ∧ o.orderSummary.shipping
        = (if 50 < o.orderSummary.subtotal then (0 : Money) else 599 / 100)
    ∧ o.orderSummary.total = o.orderSummary.subtotal + o.orderSummary.tax
        + o.orderSummary.shipping - o.orderSummary.discount := by
  obtain ⟨its, sub, rx, hbuild, hsave, -, -⟩ := createOrder_ok_elim h
  obtain ⟨hall, hsub⟩ := buildOrderItems_spec hbuild
  have hitems : o.items = its := by
    rw [(orderSave_proj hsave).1, (mkOrderData_spec user its sub rx).1]
  have hsummary := (orderSave_proj hsave).2.2.2.2.1
  rw [(mkOrderData_spec user its sub rx).1,
    (mkOrderData_spec user its sub rx).2.2.2.2] at hsummary
  rw [hsummary, hitems, ← hsub]
  refine ⟨hall, ?_, ?_, ?_, ?_⟩ <;> simp

/-- A schema-valid order sitting in the terminal status `cancelled`. -/
def cOrder : Order :=
  { orderNumber := some "ORD1", user := 3,
    items := [{ drug := 1, name := "A", quantity := 1, price := 10, subtotal := 10,
                prescriptionRequired := false }],
    orderSummary := { subtotal := 10, tax := 0, shipping := 0, discount := 0,
                      total := 10 },
    orderStatus := .cancelled,
    statusHistory := [{ status := .cancelled, timestamp := 1, note := "late",
                        updatedBy := none }],
    requiresPrescription := false, actualDeliveryDate := none,
    cancellationReason := some "late", statusDirty := false }

/-- `cOrder` as mutated by `updateStatus(confirmed)` before its save. -/
def c5mut : Order :=
  { cOrder.setStatus .confirmed with
    statusHistory := cOrder.statusHistory ++
      [{ status := .confirmed, timestamp := 9, note := "reopen",
         updatedBy := some 1 }] }

/-- The persisted result of that save. -/
def c5saved : Order :=
  { orderPreSaveHistory 9 (orderPreSaveTotals 9 9 c5mut) with statusDirty := false }

/-- C5 counterexample: the claim makes `cancelled` terminal under every
operation, including the privileged status update.  Running
`updateOrderStatus(confirmed)` on a cancelled order succeeds and moves it to
`confirmed`: the controller checks only membership in `validStatuses`, and
`updateStatus` assigns the new status with no transition guard. -/
theorem updateOrderStatus_escapes_cancelled :
    (updateOrderStatusCtrl 9 9 1 .confirmed "reopen" cOrder).toOption.map
        (fun o => o.orderStatus) = some OrderStatus.confirmed
    ∧ cOrder.orderStatus = OrderStatus.cancelled := by
  have hv : orderValid c5mut = true := by
    norm_num [orderValid, orderItemValid, c5mut, Order.setStatus, cOrder]
  have hs : orderSave 9 9 c5mut = some c5saved := by
    simp [orderSave, hv, c5saved]
  have hm : Order.updateStatus 9 9 cOrder .confirmed "reopen" 1 = orderSave 9 9 c5mut :=
    updateStatus_eq 9 9 cOrder .confirmed "reopen" 1
  have hstat : c5saved.orderStatus = .confirmed := by
    rw [(orderSave_proj hs).2.1]
    simp [c5mut, Order.setStatus]
  have hc : validStatuses.contains OrderStatus.confirmed = true := rfl
  have hdel : (OrderStatus.confirmed == OrderStatus.delivered) = false := rfl
  have hmem : OrderStatus.confirmed ∈ validStatuses := by simp [validStatuses]
  have hctrl : updateOrderStatusCtrl 9 9 1 .confirmed "reopen" cOrder = .ok c5saved := by
    simp [updateOrderStatusCtrl, hc, hm, hs, hdel, hmem]
  exact ⟨by rw [hctrl]; simp [Except.toOption, hstat], rfl⟩

/-- C5 amended: `cancelled` and `returned` are terminal only for the
customer-facing cancel operation, whose `canBeCancelled` guard rejects them;
the privileged `updateOrderStatus` operation has no transition guard and
moves an order out of `cancelled` or `returned` to any requested valid
status. -/
theorem terminal_states_not_enforced (now rand admin requester : Nat)
    (s : OrderStatus) (note reason : String) (o : Order) (db : DrugDb)
    (hterm : o.orderStatus = .cancelled ∨ o.orderStatus = .returned)
    (hv : orderValid o = true) (hd : o.orderSummary.discount = 0) :
    (∃ o', updateOrderStatusCtrl now rand admin s note o = .ok o'
      ∧ o'.orderStatus = s)
    ∧ cancelOrderCtrl now rand requester reason o db = .error .invalidTransition := by
  constructor
  · have hc : validStatuses.contains s = true := by cases s <;> rfl
    set m : Order := { o.setStatus s with
        statusHistory := o.statusHistory ++
          [{ status := s, timestamp := now, note := note,
             updatedBy := some admin }] } with hmdef
    have hmeq : Order.updateStatus now rand o s note admin = orderSave now rand m :=
      updateStatus_eq now rand o s note admin
    have hvm : orderValid m = true := by
      rw [orderValid_congr (show m.items = o.items by simp [hmdef, Order.setStatus])
        (show m.orderSummary = o.orderSummary by simp [hmdef, Order.setStatus])]
      exact hv
    cases hs : orderSave now rand m with
    | none => simp [orderSave, hvm] at hs
    | some o1 =>
      have hstat1 : o1.orderStatus = s := by
        rw [(orderSave_proj hs).2.1]
        simp [hmdef, Order.setStatus]
      have hdm : m.orderSummary.discount = 0 := by
        rw [show m.orderSummary = o.orderSummary by simp [hmdef, Order.setStatus]]
        exact hd
      have hv1 : orderValid o1 = true := orderValid_of_save hs hdm
      cases hb : (s == OrderStatus.delivered && o1.actualDeliveryDate.isNone) with
      | true =>
        have hv1' : orderValid { o1 with actualDeliveryDate := some now } = true := by
          rw [orderValid_congr (show ({ o1 with actualDeliveryDate := some now }).items
              = o1.items by simp)
            (show ({ o1 with actualDeliveryDate := some now }).orderSummary
              = o1.orderSummary by simp)]
          exact hv1
        cases hs2 : orderSave now rand { o1 with actualDeliveryDate := some now } with
        | none => simp [orderSave, hv1'] at hs2
        | some o2 =>
          refine ⟨o2, ?_, ?_⟩
          · have hmem : s ∈ validStatuses := by cases s <;> simp [validStatuses]
            simp [updateOrderStatusCtrl, hc, hmeq, hs, hb, hs2, hmem]
          · rw [(orderSave_proj hs2).2.1]
            exact hstat1
      | false =>
        refine ⟨o1, ?_, hstat1⟩
        have hmem : s ∈ validStatuses := by cases s <;> simp [validStatuses]
        simp [updateOrderStatusCtrl, hc, hmeq, hs, hb, hmem]
  · have hg : o.canBeCancelled = false := by
      rcases hterm with h | h <;> simp [Order.canBeCancelled, h]
    simp [cancelOrderCtrl, hg]

lemma orderSave_history_cases {now rand : Nat} {o o' : Order}
    (h : orderSave now rand o = some o') :
    (o.statusDirty = true → o'.statusHistory = o.statusHistory ++
      [{ status := o.orderStatus, timestamp := now,
         note := "Order status changed", updatedBy := none }])
    ∧ (o.statusDirty = false → o'.statusHistory = o.statusHistory) := by
  obtain ⟨-, -, -, -, -, hhist⟩ := orderSave_proj h
  constructor <;> intro hd <;> simp [hhist, hd]

/-- C6 amended: `statusHistory` only ever grows — no save shrinks it — and
after every `updateStatus` and every `cancelOrder` the last entry's status
equals the order's current status; but creation appends no entry: the
defaulted initial status does not mark the `orderStatus` path modified, so a
freshly created order has an empty history. -/
theorem statusHistory_append_only :
    (∀ now rand : Nat, ∀ o o' : Order, orderSave now rand o = some o' →
      o.statusHistory.length ≤ o'.statusHistory.length)
    ∧ (∀ now rand uid : Nat, ∀ s : OrderStatus, ∀ note : String, ∀ o o' : Order,
        Order.updateStatus now rand o s note uid = some o' →
        o.statusHistory.length ≤ o'.statusHistory.length
        ∧ o'.statusHistory.getLast?.map (fun e => e.status) = some o'.orderStatus)
    ∧ (∀ now rand uid : Nat, ∀ reason : String, ∀ o o' : Order,
        Order.cancelOrder now rand o reason uid = some o' →
        o.statusHistory.length ≤ o'.statusHistory.length
        ∧ o'.statusHistory.getLast?.map (fun e => e.status) = some o'.orderStatus)
    ∧ (∀ now rand user : Nat, ∀ cart : Cart, ∀ view : Nat → Option DrugDoc,
        ∀ db : DrugDb, ∀ o : Order, ∀ db' : DrugDb, ∀ c' : Cart,
        createOrder now rand user cart view db = .ok (o, db', c') →
        o.statusHistory = []) := by
  refine ⟨?_, ?_, ?_, ?_⟩
  · intro now rand o o' h
    have hcases := orderSave_history_cases h
    cases hd : o.statusDirty with
    | true => rw [hcases.1 hd]; simp
    | false => rw [hcases.2 hd]
  · intro now rand uid s note o o' h
    rw [updateStatus_eq] at h
    have hstat := (orderSave_proj h).2.1
    have hcases := orderSave_history_cases h
    simp only [Order.setStatus] at hstat hcases
    cases hdirty : (o.statusDirty || (s != o.orderStatus)) with
    | true =>
      have hh := hcases.1 hdirty
      exact ⟨by rw [hh]; simp, by simp [hh, hstat, List.getLast?_concat]⟩
    | false =>
      have hh := hcases.2 hdirty
      exact ⟨by rw [hh]; simp, by simp [hh, hstat, List.getLast?_concat]⟩
  · intro now rand uid reason o o' h
    unfold Order.cancelOrder at h
    split at h
    · simp at h
    · rw [show Order.setStatus o .cancelled = o.setStatus .cancelled from rfl] at h
      have hstat := (orderSave_proj h).2.1
      have hcases := orderSave_history_cases h
      simp only [Order.setStatus] at hstat hcases
      cases hdirty : (o.statusDirty || (OrderStatus.cancelled != o.orderStatus)) with
      | true =>
        have hh := hcases.1 hdirty
        exact ⟨by rw [hh]; simp, by simp [hh, hstat, List.getLast?_concat]⟩
      | false =>
        have hh := hcases.2 hdirty
        exact ⟨by rw [hh]; simp, by simp [hh, hstat, List.getLast?_concat]⟩
  · intro now rand user cart view db o db' c' h
    obtain ⟨its, sub, rx, -, hsave, -, -⟩ := createOrder_ok_elim h
    have hh := (orderSave_history_cases hsave).2 (mkOrderData_spec user its sub rx).2.2.1
    rw [hh, (mkOrderData_spec user its sub rx).2.2.2.1]

/-- Drug 1 after a catalog price change: the cart line below still stores the
old price 10. -/
def drugA12 : DrugDoc :=
  { name := "A", price := 12, stockQuantity := 10, isActive := true,
    prescriptionRequired := false, salesCount := 0 }

/-- The catalog holding only the repriced drug 1. -/
def oneDrug : Nat → Option DrugDoc :=
  fun i => if i = 1 then some drugA12 else none

/-- A previously saved cart with one line of drug 1 at the old price. -/
def preCart : Cart :=
  { items := [{ drug := 1, quantity := 1, price := 10, subtotal := 10 }],
    totalItems := 1, totalAmount := 10 }

/-- Adding one more unit of drug 1 to `preCart`. -/
def addRun : Except OrderErr Cart := addToCart oneDrug 1 1 preCart

/-- The cart persisted by that call. -/
def addedCart : Cart :=
  { items := [{ drug := 1, quantity := 2, price := 10, subtotal := 20 }],
    totalItems := 2, totalAmount := 24 }

/-- C9 counterexample: adding to an existing line recomputes its subtotal at
the current catalog price (12) without updating the stored line price (10);
the save hook then derives `totalAmount` from that pre-save subtotal
(12 × 2 = 24) before overwriting the line subtotal with
`price × quantity = 10 × 2 = 20`.  The persisted cart has
`totalAmount = 24` while its lines' subtotals sum to 20, so the persisted
totals are not fully derived from the persisted lines. -/
theorem addToCart_totalAmount_diverges :
    addRun = .ok addedCart
    ∧ addedCart.totalAmount = 24
    ∧ addedCart.items.foldl (fun t it => t + it.subtotal) 0 = 20
    ∧ addedCart.totalAmount ≠ addedCart.items.foldl (fun t it => t + it.subtotal) 0 := by
  refine ⟨?_, rfl, ?_, ?_⟩
  · norm_num [addRun, addToCart, findActiveDrug, oneDrug, drugA12, preCart,
      updateExisting, cartSave, cartValid, cartPreSave, addedCart]
  · norm_num [addedCart]
  · norm_num [addedCart]

/-- C9 amended: after every cart save, `totalItems` equals the sum of the
line quantities and every persisted line's subtotal equals its stored
`price × quantity`; `totalAmount`, however, is the sum of the subtotals as
they stood when the save began, so it equals the sum of the persisted line
subtotals only when every line entered the save with
`subtotal = price × quantity` — which the add-to-existing-line path of the
cart controller violates after a catalog price change. -/
theorem cart_totals_recomputed_on_save (c c' : Cart) (h : cartSave c = some c') :
    c'.totalItems = c'.items.foldl (fun t it => t + it.quantity) 0
    ∧ (∀ it ∈ c'.items, it.subtotal = it.price * (it.quantity : Money))
    ∧ ((∀ it ∈ c.items, it.subtotal = it.price * (it.quantity : Money)) →
        c'.totalAmount = c'.items.foldl (fun t it => t + it.subtotal) 0) := by
  obtain ⟨hv, rfl⟩ := cartSave_eq h
  refine ⟨?_, ?_, ?_⟩
  · simp [cartPreSave, List.foldl_map]
  · intro it hit
    simp only [cartPreSave, List.mem_map] at hit
    obtain ⟨x, -, rfl⟩ := hit
    rfl
  · intro hcons
    simp only [cartPreSave, List.foldl_map]
    exact cart_foldl_sub_congr c.items 0 (fun it => it.subtotal)
      (fun it => it.price * (it.quantity : Money)) hcons

/-! Concrete inputs for the witnesses. -/

/-- A valid pending order used by the save/cancel witnesses. -/
def wOrder3 : Order :=
  { orderNumber := some "ORD3", user := 1,
    items := [{ drug := 1, name := "A", quantity := 2, price := 3, subtotal := 6,
                prescriptionRequired := false }],
    orderSummary := { subtotal := 6, tax := 1, shipping := 2, discount := 0,
                      total := 9 },
    orderStatus := .pending, statusHistory := [], requiresPrescription := false,
    actualDeliveryDate := none, cancellationReason := none, statusDirty := false }

/-- `wOrder3` as persisted by `orderSave 5 5`. -/
def wOrder3s : Order :=
  { orderPreSaveHistory 5 (orderPreSaveTotals 5 5 wOrder3) with statusDirty := false }

/-- Witness for the C3 theorem at a concrete save. -/
theorem orderSummary_total_invariant_witness :
    orderSave 5 5 wOrder3 = some wOrder3s
    ∧ wOrder3s.orderSummary.total
        = wOrder3s.orderSummary.subtotal + wOrder3s.orderSummary.tax
          + wOrder3s.orderSummary.shipping - wOrder3s.orderSummary.discount
    ∧ 0 ≤ wOrder3s.orderSummary.total := by
  have hv : orderValid wOrder3 = true := by
    norm_num [orderValid, orderItemValid, wOrder3]
  have hs : orderSave 5 5 wOrder3 = some wOrder3s := by
    simp [orderSave, hv, wOrder3s]
  have h := orderSummary_total_invariant.1 5 5 wOrder3 wOrder3s hs rfl
  exact ⟨hs, h.1, h.2.1⟩

/-- `wOrder3` moved to the non-cancellable status `shipped`. -/
def wShipped : Order := { wOrder3 with orderStatus := .shipped }

/-- A one-drug collection for the cancel witnesses. -/
def wDb4 : DrugDb := fun _ => drugA

/-- Witness for the C4 theorem: cancelling a shipped order fails, cancelling
a pending order succeeds. -/
theorem cancelOrder_guard_witness :
    cancelOrderCtrl 1 1 9 "late" wShipped wDb4 = .error .invalidTransition
    ∧ (cancelOrderCtrl 1 1 9 "late" wOrder3 wDb4).isOk = true := by
  have hv : orderValid wOrder3 = true := by
    norm_num [orderValid, orderItemValid, wOrder3]
  constructor
  · exact (cancelOrder_guard_behavior 1 1 9 "late" wShipped wDb4).1 rfl
  · obtain ⟨o', hctrl, -, -⟩ :=
      (cancelOrder_guard_behavior 1 1 9 "late" wOrder3 wDb4).2 rfl hv
    rw [hctrl]
    rfl

/-- `wOrder3` in the terminal status `returned`. -/
def wReturned : Order := { wOrder3 with orderStatus := .returned }

/-- Witness for the C5 amended theorem at a returned order. -/
theorem terminal_not_enforced_witness :
    (updateOrderStatusCtrl 2 2 1 .processing "x" wReturned).isOk = true
    ∧ cancelOrderCtrl 2 2 1 "x" wReturned wDb4 = .error .invalidTransition := by
  have hv : orderValid wReturned = true := by
    norm_num [orderValid, orderItemValid, wReturned, wOrder3]
  obtain ⟨⟨o', hctrl, -⟩, hcancel⟩ :=
    terminal_states_not_enforced 2 2 1 1 .processing "x" "x" wReturned wDb4
      (Or.inr rfl) hv rfl
  exact ⟨by rw [hctrl]; rfl, hcancel⟩

/-- `wOrder3` with one prior history entry, for the history witnesses. -/
def wOrder6 : Order :=
  { wOrder3 with statusHistory :=
      [{ status := .pending, timestamp := 0, note := "n", updatedBy := none }] }

/-- `wOrder6` as mutated by `updateStatus(confirmed)` before its save. -/
def w6mut : Order :=
  { wOrder6.setStatus .confirmed with
    statusHistory := wOrder6.statusHistory ++
      [{ status := .confirmed, timestamp := 6, note := "ok", updatedBy := some 2 }] }

/-- The persisted result of that save. -/
def w6saved : Order :=
  { orderPreSaveHistory 6 (orderPreSaveTotals 6 6 w6mut) with statusDirty := false }

lemma w6_update : Order.updateStatus 6 6 wOrder6 .confirmed "ok" 2 = some w6saved := by
  have hv : orderValid w6mut = true := by
    norm_num [orderValid, orderItemValid, w6mut, Order.setStatus, wOrder6, wOrder3]
  have hs : orderSave 6 6 w6mut = some w6saved := by
    simp [orderSave, hv, w6saved]
  have hm : Order.updateStatus 6 6 wOrder6 .confirmed "ok" 2 = orderSave 6 6 w6mut :=
    updateStatus_eq 6 6 wOrder6 .confirmed "ok" 2
  rw [hm, hs]

/-- Witness for the C6 amended theorem at a concrete status update. -/
theorem statusHistory_append_only_witness :
    Order.updateStatus 6 6 wOrder6 .confirmed "ok" 2 = some w6saved
    ∧ wOrder6.statusHistory.length ≤ w6saved.statusHistory.length
    ∧ w6saved.statusHistory.getLast?.map (fun e => e.status)
        = some w6saved.orderStatus := by
  have h := statusHistory_append_only.2.1 6 6 2 .confirmed "ok" wOrder6 w6saved w6_update
  exact ⟨w6_update, h.1, h.2⟩

/-- Witness for the C10 theorem at the same concrete status update. -/
theorem updateStatus_appends_two_entries_witness :
    Order.updateStatus 6 6 wOrder6 .confirmed "ok" 2 = some w6saved
    ∧ w6saved.statusHistory.length = wOrder6.statusHistory.length + 2 := by
  have h := updateStatus_appends_two_entries 6 6 wOrder6 w6saved .confirmed "ok" 2
    (by decide) w6_update
  exact ⟨w6_update, h.2⟩

/-- Cancelling the scenario order against the post-creation stock. -/
def w7cancel : Except OrderErr (Order × DrugDb) :=
  cancelOrderCtrl 8 8 7 "mind" (scenarioOrder 3 4) (decrementStock staleItems okDb)

/-- The stock collection after that cancellation. -/
def w7db2 : DrugDb :=
  match w7cancel with
  | .ok (_, db) => db
  | .error _ => okDb

/-- Witness for the C7 theorem: creating and then cancelling the scenario
order leaves both products' stock at their initial values. -/
theorem create_then_cancel_witness :
    w7cancel.isOk = true
    ∧ (w7db2 1).stockQuantity = (okDb 1).stockQuantity
    ∧ (w7db2 2).stockQuantity = (okDb 2).stockQuantity := by
  obtain ⟨o2, db2, hctrl, hall⟩ :=
    create_then_cancel_restores_stock 3 4 7 8 8 7 "mind" scenarioCart scenarioView okDb
      (scenarioOrder 3 4) (decrementStock staleItems okDb)
      (cartPreSave { scenarioCart with items := [] })
      (createOrder_scenario_eq 3 4 okDb)
  have hdb : w7db2 = db2 := by
    simp only [w7db2, w7cancel, hctrl]
  refine ⟨?_, by rw [hdb]; exact hall 1, by rw [hdb]; exact hall 2⟩
  simp only [w7cancel, hctrl]
  rfl

/-- Witness for the C8 theorem: the scenario checkout (2 units at catalog
price 10 plus 1 unit at catalog price 20) produces an order whose subtotal
is 40. -/
theorem createOrder_repricing_witness :
    okRun = .ok (scenarioOrder 3 4, decrementStock staleItems okDb,
        cartPreSave { scenarioCart with items := [] })
    ∧ (scenarioOrder 3 4).orderSummary.subtotal = 40 := by
  have h : okRun = .ok (scenarioOrder 3 4, decrementStock staleItems okDb,
      cartPreSave { scenarioCart with items := [] }) := createOrder_scenario_eq 3 4 okDb
  have hp := createOrder_reprices_and_totals 3 4 7 scenarioCart scenarioView okDb
    (scenarioOrder 3 4) (decrementStock staleItems okDb)
    (cartPreSave { scenarioCart with items := [] }) h
  refine ⟨h, ?_⟩
  rw [hp.2.1, (orderSave_proj (scenario_orderSave 3 4)).1,
    (mkOrderData_spec 7 staleItems 40 false).1]
  norm_num [staleItems]

/-- A consistent cart for the C9 amended witness. -/
def wCart9 : Cart :=
  { items := [{ drug := 2, quantity := 3, price := 2, subtotal := 6 }],
    totalItems := 3, totalAmount := 6 }

/-- `wCart9` as persisted. -/
def wCart9s : Cart := cartPreSave wCart9

/-- Witness for the C9 amended theorem at a consistent cart. -/
theorem cart_totals_recomputed_witness :
    cartSave wCart9 = some wCart9s
    ∧ wCart9s.totalItems = wCart9s.items.foldl (fun t it => t + it.quantity) 0
    ∧ wCart9s.totalAmount = wCart9s.items.foldl (fun t it => t + it.subtotal) 0 := by
  have hs : cartSave wCart9 = some wCart9s := by
    norm_num [cartSave, cartValid, wCart9, wCart9s]
  have h := cart_totals_recomputed_on_save wCart9 wCart9s hs
  refine ⟨hs, h.1, h.2.2 ?_⟩
  intro it hit
  simp only [wCart9, List.mem_singleton] at hit
  subst hit
  norm_num

end PharmT
